import Mathlib

/-
  Shallow embedding of src/main.py (microfluidics-microscope GUI controller).
  The Wago output bank, the routine worker machinery, and the MCL stage
  command path are translated directly from the source; GUI layout, the
  serial LED path and the physical transports are out of scope of the
  claims treated here.  Transport writes (client.write_coil, mcl_move) are
  modelled as logs of the calls made.
-/

namespace UFluid

/-- Preset A (src/main.py:170): all outputs off, six 4-bit groups of zeros. -/
def A : String := "0000" ++ "0000" ++ "0000" ++ "0000" ++ "0000" ++ "0000"

/-- Preset B (src/main.py:173): all outputs on. -/
def B : String := "1111" ++ "1111" ++ "1111" ++ "1111" ++ "1111" ++ "1111"

/-- Preset C (src/main.py:176): alternating 1010 pattern. -/
def C : String := "1010" ++ "1010" ++ "1010" ++ "1010" ++ "1010" ++ "1010"

/-- Preset D (src/main.py:179): alternating 0101 pattern. -/
def D : String := "0101" ++ "0101" ++ "0101" ++ "0101" ++ "0101" ++ "0101"

/-- Python int(c) applied to a single character, as used in
setButtonsState and getButtonsState: a decimal digit parses to its value,
any other character raises ValueError, modelled as none.  The digit test
is the ASCII one; Python int also parses non-ASCII Unicode decimal
digits, a case outside every input the source constructs and every input
the claims name. -/
def pyInt (c : Char) : Option Nat :=
  if c.isDigit then some (c.toNat - 48) else none

/-- State of the Wago part of MainWindow: the 24 checkable buttons (in the
insertion order of the buttons dict, index 0 = button 1), the text fields
k (manual input), displayBin, b4 (status) and bc (command label), and the
log of write_coil calls issued to the Modbus client. -/
structure WagoState where
  buttons : List Bool
  k : String
  displayBin : String
  b4 : String
  bc : String
  coils : List (Nat × Bool)
deriving DecidableEq

/-- Rendering of the button states as a binary string,
as in the join of the list comprehension in getButtonsState. -/
def boolsToBinstring (bs : List Bool) : String :=
  String.mk (bs.map fun b => if b then '1' else '0')

/-- getButtonsState (src/main.py:435): read the buttons, display the
binary string, set status OK, and write every coil in index order.  The
characters of the binstring are 0 or 1 by construction, so bool(int(c))
is c equal to 1. -/
def getButtonsState (s : WagoState) : WagoState :=
  let binstring := boolsToBinstring s.buttons
  { s with displayBin := binstring, b4 := "OK",
           coils := s.coils ++ binstring.data.enum.map (fun p => (p.1, p.2 == '1')) }

/-- The for loop of setButtonsState (src/main.py:461): walk the buttons in
order, setting button j to bool(int(inputs[j])).  The boolean result flags
a raised exception: ValueError when int(c) fails, IndexError when the
input is shorter than the button list; buttons from the failing index on
keep their old values (the mutation made so far is kept). -/
def setButtonsLoop : List Bool → List Char → List Bool × Bool
  | [], _ => ([], false)
  | b :: bs, [] => (b :: bs, true)
  | b :: bs, c :: cs =>
    match pyInt c with
    | none => (b :: bs, true)
    | some n =>
      let r := setButtonsLoop bs cs
      ((n != 0) :: r.1, r.2)

/-- The status message of setButtonsState for a wrong-length input. -/
def errMsg : String := "Error! Require 24-bit binary input"

/-- setButtonsState (src/main.py:453): reject inputs whose length is not
24 (status message, k reset to preset A, buttons untouched); otherwise run
the per-index update loop, then getButtonsState, then set status OK.  The
boolean result flags an exception escaping the slot (partial update kept,
no status write). -/
def setButtonsState (s : WagoState) : WagoState × Bool :=
  let inputs := s.k
  if inputs.length ≠ 24 then
    ({ s with b4 := errMsg, k := A }, false)
  else
    let r := setButtonsLoop s.buttons inputs.data
    if r.2 then
      ({ s with buttons := r.1 }, true)
    else
      let s1 := getButtonsState { s with buttons := r.1 }
      ({ s1 with b4 := "OK" }, false)

/-- writeInputCommand (src/main.py:467): put the given input string into
the k field. -/
def writeInputCommand (s : WagoState) (inputs : String) : WagoState :=
  { s with k := inputs }

/-- action (src/main.py:417): dispatch a routine event label.  Labels A,
B, C, D set the command label, write the matching preset into k and apply
it via setButtonsState; any other label matches no branch and the method
returns with nothing done and no error.  The boolean result flags an
exception from setButtonsState. -/
def action (s : WagoState) (results : String) : WagoState × Bool :=
  if results = "A" then
    setButtonsState (writeInputCommand { s with bc := results } A)
  else if results = "B" then
    setButtonsState (writeInputCommand { s with bc := results } B)
  else if results = "C" then
    setButtonsState (writeInputCommand { s with bc := results } C)
  else if results = "D" then
    setButtonsState (writeInputCommand { s with bc := results } D)
  else (s, false)

/-- The Wago state right after MainWindow init (src/main.py:182): all 24
buttons unchecked, k preset to A, status OK, command label text Command,
followed by the getButtonsState call of line 189. -/
def initState : WagoState :=
  getButtonsState
    { buttons := List.replicate 24 false, k := A, displayBin := "",
      b4 := "OK", bc := "Command", coils := [] }

/-- Events a worker delivers: result signals carrying a label, then the
finished signal. -/
inductive Event
  | result (label : String)
  | finished
deriving DecidableEq

/-- executefn1 (src/main.py:379): ten repetitions of emit A, sleep 1,
emit B, sleep 2, written as the list of (label, delay) steps produced by
the loop. -/
def executefn1 : List (String × ℚ) :=
  ((List.range 10).map fun _ => [("A", (1 : ℚ)), ("B", 2)]).flatten

/-- executefn2 (src/main.py:386): ten repetitions of emit C, sleep 1,
emit D, sleep 1. -/
def executefn2 : List (String × ℚ) :=
  ((List.range 10).map fun _ => [("C", (1 : ℚ)), ("D", 1)]).flatten

/-- executefn3 (src/main.py:393): ten repetitions of A, B, C with delays
1, 1, 2. -/
def executefn3 : List (String × ℚ) :=
  ((List.range 10).map fun _ => [("A", (1 : ℚ)), ("B", 1), ("C", 2)]).flatten

/-- executefn4 (src/main.py:402): ten repetitions of A, B, C, D with
delays 0.5, 0.5, 0.5, 1. -/
def executefn4 : List (String × ℚ) :=
  ((List.range 10).map fun _ => [("A", (1 : ℚ)/2), ("B", 1/2), ("C", 1/2), ("D", 1)]).flatten

/-- The labels a routine function emits, in order. -/
def emissions (fn : List (String × ℚ)) : List String :=
  fn.map Prod.fst

/-- The labeled deliveries of Worker.run (src/main.py:112): the routine
function emits one result signal per step in authoring order, and the
finished signal ends the run.  The worker holds no cancellation or
supersession flag and consults nothing while running.  This view keeps
only the labeled result signals; the complete signal stream, including
the extra result signal that line 123 emits with the return value of the
routine function, is Worker.runSignals below. -/
def Worker.run (fn : List (String × ℚ)) : List Event :=
  (emissions fn).map Event.result ++ [Event.finished]

/-- A signal of WorkerSignals as the action slot receives it: a result
signal carries either a label string emitted by the routine function or
the None return value of the function, finished carries nothing. -/
inductive WorkerSignal
  | result (payload : Option String)
  | finished
deriving DecidableEq

/-- The complete signal stream of Worker.run (src/main.py:112): the try
block runs the routine function, which emits one result signal per step
in authoring order and returns None; the else branch at line 123 then
emits that return value as one further result signal; the finally block
emits finished.  No routine function raises, so the error path never
fires. -/
def Worker.runSignals (fn : List (String × ℚ)) : List WorkerSignal :=
  (emissions fn).map (fun l => WorkerSignal.result (some l))
    ++ [WorkerSignal.result none, WorkerSignal.finished]

/-- Delivery of one result signal payload to the action slot: a label
string goes through the if chain of action; the None payload of the
return-value emission compares unequal to each of the four label
strings, so it matches no branch and the slot returns with nothing
done and no error. -/
def actionPayload (s : WagoState) (payload : Option String) : WagoState × Bool :=
  match payload with
  | some l => action s l
  | none => (s, false)

/-- The Wago states after each result signal of a worker stream is
consumed by the action slot.  Queued signal connections deliver the
signals to the foreground thread in emission order, which is all this
fold asserts; finished is connected to thread_complete, which only
prints, so it adds no state. -/
def resultTrace (s : WagoState) : List WorkerSignal → List WagoState
  | [] => []
  | WorkerSignal.result p :: rest =>
    let t := (actionPayload s p).1
    t :: resultTrace t rest
  | WorkerSignal.finished :: rest => resultTrace s rest

/-- threadpool.start (src/main.py:358): the new worker is added to the
pool of running workers unconditionally; the workers already in the pool
are not consulted, stopped or altered.  A pool entry is the list of
events that worker still has to deliver. -/
def threadpoolStart (pool : List (List Event)) (w : List Event) : List (List Event) :=
  pool ++ [w]

/-- runfunction1 (src/main.py:353): build a worker for executefn1 and
start it on the pool. -/
def runfunction1 (pool : List (List Event)) : List (List Event) :=
  threadpoolStart pool (Worker.run executefn1)

/-- runfunction2 (src/main.py:359): build a worker for executefn2 and
start it on the pool. -/
def runfunction2 (pool : List (List Event)) : List (List Event) :=
  threadpoolStart pool (Worker.run executefn2)

/-- runfunction3 (src/main.py:365): build a worker for executefn3 and
start it on the pool. -/
def runfunction3 (pool : List (List Event)) : List (List Event) :=
  threadpoolStart pool (Worker.run executefn3)

/-- runfunction4 (src/main.py:371): build a worker for executefn4 and
start it on the pool. -/
def runfunction4 (pool : List (List Event)) : List (List Event) :=
  threadpoolStart pool (Worker.run executefn4)

/-- A call to stage.mcl_move: axis, velocity in mm per s, signed distance
in mm.  Distances and velocities are modelled as rationals; the source
computes with Python floats, whose rounding plays no role in the mapping
the claims are about. -/
structure StageCmd where
  axis : Nat
  velocity : ℚ
  distance : ℚ
deriving DecidableEq

/-- Outcome of MainWindow.move: either stage.mcl_move was called exactly
once with the given command, or the local variables axis and distance
were never assigned and evaluating the mcl_move call raised
UnboundLocalError with nothing dispatched. -/
inductive MoveResult
  | dispatched (cmd : StageCmd)
  | nameError
deriving DecidableEq

/-- move (src/main.py:491): the if chain over the 4-bit direction string.
D is float(self.D.text()) in micrometers, V is float(self.V.text());
matched branches convert D to mm by multiplying with 1/1000 and apply the
sign, then mcl_move is called once; no else branch exists, so any other
input leaves axis and distance unassigned and the call raises. -/
def move (D V : ℚ) (INPUT : String) : MoveResult :=
  if INPUT = "1000" then .dispatched ⟨1, V, D * (1/1000)⟩
  else if INPUT = "0001" then .dispatched ⟨1, V, (-D) * (1/1000)⟩
  else if INPUT = "0100" then .dispatched ⟨2, V, (-D) * (1/1000)⟩
  else if INPUT = "0010" then .dispatched ⟨2, V, D * (1/1000)⟩
  else .nameError

/-- The list of mcl_move calls a MoveResult stands for: one on dispatch,
none when the call raised. -/
def dispatchLog : MoveResult → List StageCmd
  | .dispatched cmd => [cmd]
  | .nameError => []

/-- The methods defined on MainWindow in src/main.py, in source order. -/
def mainWindowAttrs : List String :=
  ["__init__", "_createStateButton", "_createStartButton", "_createInputField",
   "_createStatusField", "_createDisplayBin", "_createSelectorButtons",
   "_createButtons", "_createMCLInput", "_createVfield", "_createDfield",
   "_createMCLButtons", "_createLEDButtons",
   "runfunction1", "runfunction2", "runfunction3", "runfunction4",
   "executefn1", "executefn2", "executefn3", "executefn4",
   "thread_complete", "action", "getButtonsState", "setButtonsState",
   "writeInputCommand", "getMCLButtonsState", "resetMCLButtonsState", "move",
   "getLEDButtonsState", "resetLEDButtonsState"]

/-- Python exceptions the MCL click path can raise. -/
inductive PyExc
  | attributeError
  | unboundLocalError
deriving DecidableEq

/-- State of the MCL part of MainWindow: the four direction buttons in the
insertion order of the MCLbuttons dict (minus X, plus Y, minus Y, plus X),
the MCL text field, and the parsed values of the D (distance, um) and V
(velocity) fields. -/
structure MCLState where
  mclButtons : List Bool
  mcl : String
  D : ℚ
  V : ℚ
deriving DecidableEq

/-- resetMCLButtonsState (src/main.py:487): uncheck every MCL button. -/
def resetMCLButtonsState (s : MCLState) : MCLState :=
  { s with mclButtons := s.mclButtons.map fun _ => false }

/-- getMCLButtonsState (src/main.py:474): read the direction buttons into
a binary string, show it in the MCL field, call move on it, then call
self.resetButtonsState.  If move matched a branch, mcl_move is dispatched
and the following attribute lookup of resetButtonsState fails, raising
AttributeError, so the buttons are never unchecked; if move matched no
branch, its own UnboundLocalError propagates with nothing dispatched.
Returns the new state, the mcl_move calls made, and the escaped
exception. -/
def getMCLButtonsState (s : MCLState) : MCLState × List StageCmd × Option PyExc :=
  let binstring := boolsToBinstring s.mclButtons
  let s1 := { s with mcl := binstring }
  match move s.D s.V binstring with
  | .nameError => (s1, [], some .unboundLocalError)
  | .dispatched cmd =>
    if mainWindowAttrs.contains "resetButtonsState" then
      (resetMCLButtonsState s1, [cmd], none)
    else
      (s1, [cmd], some .attributeError)

/-- A click on MCL direction button i (src/main.py:330): the checkable
button toggles, then the clicked signal runs getMCLButtonsState. -/
def clickMCL (s : MCLState) (i : Nat) : MCLState × List StageCmd × Option PyExc :=
  getMCLButtonsState { s with mclButtons := s.mclButtons.set i (!(s.mclButtons.getD i false)) }

/-- The MCL state right after MainWindow init: four unchecked buttons
(src/main.py:202), V field text 1 (src/main.py:307), D field text 50
(src/main.py:317), empty MCL field. -/
def mclInit : MCLState :=
  resetMCLButtonsState { mclButtons := [false, false, false, false], mcl := "", D := 50, V := 1 }

/-- A concrete manual input for exercising the alphabet gap of
setButtonsState: 22 digits, then a non-digit, then a digit. -/
def wit9pre : List Char := '2' :: List.replicate 21 '0'

/-- A Wago state whose k field holds a 24-character input containing the
non-digit x at index 22. -/
def wit9 : WagoState :=
  { buttons := List.replicate 24 true, k := String.mk (wit9pre ++ 'x' :: ['0']),
    displayBin := "", b4 := "OK", bc := "Command", coils := [] }

/- ----------------------------------------------------------------- -/
/- Helper lemmas                                                     -/
/- ----------------------------------------------------------------- -/

theorem setButtonsLoop_binary (cs : List Char) : ∀ (bs : List Bool), bs.length = cs.length →
    (∀ c ∈ cs, c = '0' ∨ c = '1') →
    setButtonsLoop bs cs = (cs.map (fun c => c == '1'), false) := by
  induction cs with
  | nil =>
    intro bs h _
    cases bs with
    | nil => rfl
    | cons b bs => simp at h
  | cons c cs ih =>
    intro bs h hall
    cases bs with
    | nil => simp at h
    | cons b bs =>
      have hrec := ih bs (by simpa using h) (fun d hd => hall d (List.mem_cons_of_mem _ hd))
      rcases hall c (List.mem_cons_self _ _) with rfl | rfl <;>
        simp [setButtonsLoop, pyInt, hrec]

theorem binstring_of_binary (cs : List Char) (h : ∀ c ∈ cs, c = '0' ∨ c = '1') :
    boolsToBinstring (cs.map (fun c => c == '1')) = String.mk cs := by
  unfold boolsToBinstring
  congr 1
  rw [List.map_map]
  induction cs with
  | nil => rfl
  | cons c cs ih =>
    have hrec := ih (fun d hd => h d (List.mem_cons_of_mem _ hd))
    rcases h c (List.mem_cons_self _ _) with rfl | rfl <;>
      simp [hrec]

theorem setButtonsLoop_stops (pre : List Char) :
    ∀ (bs : List Bool) (c : Char) (suf : List Char),
      (∀ d ∈ pre, d.isDigit = true) → c.isDigit = false → pre.length < bs.length →
      setButtonsLoop bs (pre ++ c :: suf)
        = (pre.map (fun d => ((d.toNat - 48) != 0)) ++ bs.drop pre.length, true) := by
  induction pre with
  | nil =>
    intro bs c suf _ hc hlen
    cases bs with
    | nil => simp at hlen
    | cons b bs =>
      have hpyc : pyInt c = none := by simp [pyInt, hc]
      simp [setButtonsLoop, hpyc]
  | cons d pre ih =>
    intro bs c suf hpre hc hlen
    cases bs with
    | nil => simp at hlen
    | cons b bs =>
      have hd : d.isDigit = true := hpre d (List.mem_cons_self _ _)
      have hpyd : pyInt d = some (d.toNat - 48) := by simp [pyInt, hd]
      have hlt : pre.length < bs.length := by
        simp only [List.length_cons] at hlen
        omega
      have hrec := ih bs c suf (fun e he => hpre e (List.mem_cons_of_mem _ he)) hc hlt
      simp [setButtonsLoop, hpyd, hrec]

/- ----------------------------------------------------------------- -/
/- Claim theorems                                                    -/
/- ----------------------------------------------------------------- -/

/-- C1: the claim says starting a routine while another run is active
fails with BusyError and at most one run is active.  The code has no such
check: starting routine 2 while the worker of routine 1 is active
unconditionally adds a second active run to the pool, so two runs drive
the outputs concurrently and no error is raised. -/
theorem start_while_active_adds_second_run :
    runfunction2 [Worker.run executefn1] = [Worker.run executefn1, Worker.run executefn2]
    ∧ (runfunction2 [Worker.run executefn1]).length = 2 :=
  ⟨rfl, rfl⟩

/-- C2 counterexample: the claim says that after the 20th emission the
engine reports completion and emits no further events.  The else branch
of Worker.run (src/main.py:123) emits the None return value of
executefn1 as a 21st result signal before finished: in the full signal
stream the event right after the 20th emission is a result signal
delivered to the dispatcher, not the completion signal, so the events
after the 20th emission are not the completion signal alone. -/
theorem routine1_emits_a_21st_result :
    ¬ ((Worker.runSignals executefn1).drop 20 = [WorkerSignal.finished])
    ∧ (Worker.runSignals executefn1).drop 20
        = [WorkerSignal.result none, WorkerSignal.finished]
    ∧ (Worker.runSignals executefn1).countP
        (fun e => match e with | WorkerSignal.result _ => true | WorkerSignal.finished => false) = 21
    ∧ (Worker.runSignals executefn1).length = 22 :=
  ⟨by decide, by decide, by decide, by decide⟩

set_option maxRecDepth 4000 in
/-- C2 amended: starting routine 1 emits exactly the labels A,B repeated
10 times (20 labeled emissions) in authoring order; consuming the result
signals in emission order leaves the 24-bit state equal to the matching
preset (A all zeros, B all ones) after each labeled emission; after the
20th labeled emission the worker emits exactly one further result
signal, carrying the None return value of the routine function, which
the dispatcher silently ignores (the state after consuming it is
identical to the state after the 20th emission), and then the finished
signal, after which nothing further is emitted. -/
theorem routine1_full_signal_trace :
    emissions executefn1 = (List.replicate 10 ["A", "B"]).flatten
    ∧ (emissions executefn1).length = 20
    ∧ (resultTrace initState (Worker.runSignals executefn1)).map (fun t => boolsToBinstring t.buttons)
        = (List.replicate 10 [A, B]).flatten ++ [B]
    ∧ (resultTrace initState (Worker.runSignals executefn1)).map (fun t => t.bc)
        = (List.replicate 10 ["A", "B"]).flatten ++ ["B"]
    ∧ (resultTrace initState (Worker.runSignals executefn1)).length = 21
    ∧ (resultTrace initState (Worker.runSignals executefn1))[20]?
        = (resultTrace initState (Worker.runSignals executefn1))[19]?
    ∧ (Worker.runSignals executefn1).drop 20
        = [WorkerSignal.result none, WorkerSignal.finished] :=
  ⟨by decide, by decide, by decide, by decide, by decide, by decide, by decide⟩

/-- C3: a manual input whose length is not 24 is rejected by
setButtonsState: the buttons are left unchanged, the status field gets
the specific validation message rather than OK, and no exception
escapes. -/
theorem setButtonsState_rejects_wrong_length (s : WagoState) (h : s.k.length ≠ 24) :
    (setButtonsState s).1.buttons = s.buttons
    ∧ (setButtonsState s).1.b4 = errMsg
    ∧ errMsg = "Error! Require 24-bit binary input"
    ∧ errMsg ≠ "OK"
    ∧ (setButtonsState s).2 = false := by
  have hset : setButtonsState s = ({ s with b4 := errMsg, k := A }, false) := by
    unfold setButtonsState
    rw [if_pos h]
  rw [hset]
  exact ⟨rfl, rfl, rfl, by decide, rfl⟩

/-- Witness for C3 at a concrete 3-character input. -/
theorem setButtonsState_rejects_wrong_length_witness :
    (setButtonsState { initState with k := "101" }).1.buttons
        = (initState : WagoState).buttons
    ∧ (setButtonsState { initState with k := "101" }).1.b4 = errMsg
    ∧ errMsg = "Error! Require 24-bit binary input"
    ∧ errMsg ≠ "OK"
    ∧ (setButtonsState { initState with k := "101" }).2 = false :=
  setButtonsState_rejects_wrong_length { initState with k := "101" } (by decide)

/-- C4: for a valid 24-character binary input, setButtonsState applies it
and the read-back path of getButtonsState returns exactly the input: the
displayed binary string and the rendering of the button states both equal
the input, the status is OK and no exception is raised. -/
theorem setAll_roundtrip (s : WagoState) (hb : s.buttons.length = 24) (hk : s.k.length = 24)
    (hbits : ∀ c ∈ s.k.data, c = '0' ∨ c = '1') :
    (setButtonsState s).1.displayBin = s.k
    ∧ boolsToBinstring (setButtonsState s).1.buttons = s.k
    ∧ (setButtonsState s).1.b4 = "OK"
    ∧ (setButtonsState s).2 = false := by
  have hcond : ¬ (s.k.length ≠ 24) := by simp [hk]
  have hlen : s.buttons.length = s.k.data.length := by
    rw [hb]
    exact hk.symm
  have hloop := setButtonsLoop_binary s.k.data s.buttons hlen hbits
  have hbin := binstring_of_binary s.k.data hbits
  have hmk : String.mk s.k.data = s.k := rfl
  have hset : setButtonsState s
      = ({ getButtonsState { s with buttons := s.k.data.map (fun c => c == '1') } with b4 := "OK" }, false) := by
    unfold setButtonsState
    rw [if_neg hcond, hloop]
    rfl
  rw [hset]
  refine ⟨?_, ?_, rfl, rfl⟩
  · show boolsToBinstring (s.k.data.map (fun c => c == '1')) = s.k
    rw [hbin, hmk]
  · show boolsToBinstring (s.k.data.map (fun c => c == '1')) = s.k
    rw [hbin, hmk]

/-- Witness for C4 at the preset C pattern. -/
theorem setAll_roundtrip_witness :
    (setButtonsState { initState with k := C }).1.displayBin = ({ initState with k := C } : WagoState).k
    ∧ boolsToBinstring (setButtonsState { initState with k := C }).1.buttons
        = ({ initState with k := C } : WagoState).k
    ∧ (setButtonsState { initState with k := C }).1.b4 = "OK"
    ∧ (setButtonsState { initState with k := C }).2 = false :=
  setAll_roundtrip { initState with k := C } (by decide) (by decide) (by decide)

/-- C5 counterexample: the claim says a run superseded by a new start has
its cancellation flag set and never emits another event.  The code sets
no flag: with the routine 1 worker mid-flight (its first event already
delivered, 20 still pending), starting routine 2 leaves the old worker
entry completely unchanged, and the old worker still delivers 19 further
result events, among them B. -/
theorem superseded_run_keeps_emitting :
    runfunction2 [(Worker.run executefn1).drop 1]
      = [(Worker.run executefn1).drop 1, Worker.run executefn2]
    ∧ Event.result "B" ∈ (Worker.run executefn1).drop 1
    ∧ ((Worker.run executefn1).drop 1).countP
        (fun e => match e with | Event.result _ => true | Event.finished => false) = 19 :=
  ⟨rfl, by decide, by decide⟩

/-- C5 amended: starting a new routine while earlier runs are active does
not supersede them: no cancellation flag exists, every pending event list
of the earlier runs is left unchanged (those events will still be
delivered), and the new run is added alongside them. -/
theorem start_leaves_active_runs_unchanged (pool : List (List Event)) :
    runfunction2 pool = pool ++ [Worker.run executefn2]
    ∧ (runfunction2 pool).take pool.length = pool
    ∧ (runfunction2 pool).length = pool.length + 1 := by
  refine ⟨rfl, ?_, ?_⟩
  · show (pool ++ [Worker.run executefn2]).take pool.length = pool
    simp
  · show (pool ++ [Worker.run executefn2]).length = pool.length + 1
    simp

/-- C6: the four one-hot direction inputs map to the documented axis and
sign, the distance in micrometers is divided by 1000 into millimeters,
and mcl_move is dispatched exactly once with the resulting command. -/
theorem move_direction_mapping (d v : ℚ) :
    move d v "1000" = MoveResult.dispatched ⟨1, v, d / 1000⟩
    ∧ move d v "0001" = MoveResult.dispatched ⟨1, v, -(d / 1000)⟩
    ∧ move d v "0100" = MoveResult.dispatched ⟨2, v, -(d / 1000)⟩
    ∧ move d v "0010" = MoveResult.dispatched ⟨2, v, d / 1000⟩
    ∧ dispatchLog (move d v "1000") = [⟨1, v, d / 1000⟩]
    ∧ dispatchLog (move d v "0001") = [⟨1, v, -(d / 1000)⟩]
    ∧ dispatchLog (move d v "0100") = [⟨2, v, -(d / 1000)⟩]
    ∧ dispatchLog (move d v "0010") = [⟨2, v, d / 1000⟩] := by
  have hpos : d * (1/1000) = d / 1000 := mul_one_div d 1000
  have hneg : (-d) * (1/1000) = -(d / 1000) := by rw [neg_mul, mul_one_div]
  refine ⟨?_, ?_, ?_, ?_, ?_, ?_, ?_, ?_⟩ <;>
    (first
      | (rw [← hpos]; rfl)
      | (rw [← hneg]; rfl))

/-- C7: for any direction string other than the four one-hot patterns,
the if chain of move matches no branch, the local variables axis and
distance stay unassigned, the call raises and nothing is dispatched to
mcl_move. -/
theorem move_rejects_non_onehot (s : String) (d v : ℚ)
    (h1 : s ≠ "1000") (h2 : s ≠ "0001") (h3 : s ≠ "0100") (h4 : s ≠ "0010") :
    move d v s = MoveResult.nameError ∧ dispatchLog (move d v s) = [] := by
  have hm : move d v s = MoveResult.nameError := by
    unfold move
    rw [if_neg h1, if_neg h2, if_neg h3, if_neg h4]
  exact ⟨hm, by rw [hm]; rfl⟩

/-- Witness for C7 at the all-zero and a multi-bit pattern. -/
theorem move_rejects_non_onehot_witness :
    (move 50 1 "0000" = MoveResult.nameError ∧ dispatchLog (move 50 1 "0000") = [])
    ∧ (move 50 1 "1100" = MoveResult.nameError ∧ dispatchLog (move 50 1 "1100") = []) :=
  ⟨move_rejects_non_onehot "0000" 50 1 (by decide) (by decide) (by decide) (by decide),
   move_rejects_non_onehot "1100" 50 1 (by decide) (by decide) (by decide) (by decide)⟩

/-- C8 counterexample: the claim says a label outside A,B,C,D makes the
dispatcher fail fast with a fatal error.  The if chain of action has no
else branch: at the unknown label E the method returns with the state
untouched and no error of any kind, silently ignoring the event. -/
theorem action_silently_ignores_unknown_label :
    (action initState "E").1 = initState ∧ (action initState "E").2 = false :=
  ⟨rfl, rfl⟩

/-- C8 amended: for every label outside A,B,C,D, action is a silent
no-op: the state is returned unchanged and no error is raised. -/
theorem action_unknown_label_noop (s : WagoState) (l : String)
    (hA : l ≠ "A") (hB : l ≠ "B") (hC : l ≠ "C") (hD : l ≠ "D") :
    action s l = (s, false) := by
  unfold action
  rw [if_neg hA, if_neg hB, if_neg hC, if_neg hD]

/-- Witness for the amended C8 at the concrete label X. -/
theorem action_unknown_label_noop_witness :
    action initState "X" = (initState, false) :=
  action_unknown_label_noop initState "X" (by decide) (by decide) (by decide) (by decide)

/-- C9: the manual entry is validated by length only.  A digit between 2
and 9 passes int() and is applied exactly as the digit 1 would be, while
a non-digit character raises ValueError partway through the per-index
loop: setButtonsState raises, the buttons before the bad index carry the
new bits, the buttons from that index on keep their old values, and
neither the status field nor the coil log is touched, so the update is
not all-or-nothing. -/
theorem manual_entry_alphabet_unchecked :
    (∀ c ∈ ['2', '3', '4', '5', '6', '7', '8', '9'], ∀ (b : Bool) (bs : List Bool) (cs : List Char),
        setButtonsLoop (b :: bs) (c :: cs) = setButtonsLoop (b :: bs) ('1' :: cs))
    ∧ (∀ (s : WagoState) (pre : List Char) (c : Char) (suf : List Char),
        s.k.data = pre ++ c :: suf → s.k.length = 24 → s.buttons.length = 24 →
        (∀ d ∈ pre, d.isDigit = true) → c.isDigit = false →
        (setButtonsState s).2 = true
        ∧ (setButtonsState s).1.buttons
            = pre.map (fun d => ((d.toNat - 48) != 0)) ++ s.buttons.drop pre.length
        ∧ (setButtonsState s).1.b4 = s.b4
        ∧ (setButtonsState s).1.coils = s.coils) := by
  constructor
  · intro c hc b bs cs
    fin_cases hc <;> rfl
  · intro s pre c suf hdata hk hb hpre hc
    have hcond : ¬ (s.k.length ≠ 24) := by simp [hk]
    have hkd : s.k.data.length = 24 := hk
    have hlt : pre.length < s.buttons.length := by
      rw [hdata] at hkd
      simp only [List.length_append, List.length_cons] at hkd
      omega
    have hloop := setButtonsLoop_stops pre s.buttons c suf hpre hc hlt
    have hset : setButtonsState s
        = ({ s with buttons := pre.map (fun d => ((d.toNat - 48) != 0)) ++ s.buttons.drop pre.length }, true) := by
      unfold setButtonsState
      rw [if_neg hcond, hdata, hloop]
      rfl
    rw [hset]
    exact ⟨rfl, rfl, rfl, rfl⟩

/-- Witness for C9: the digit 2 behaves as 1 in the loop, and the
concrete 24-character input with x at index 22 leaves the last two of the
previously all-on buttons at their old value while the first 22 carry the
new bits, with an exception raised and no status update. -/
theorem manual_entry_alphabet_unchecked_witness :
    setButtonsLoop [false, true] ['2', '1'] = setButtonsLoop [false, true] ['1', '1']
    ∧ ((setButtonsState wit9).2 = true
       ∧ (setButtonsState wit9).1.buttons
           = wit9pre.map (fun d => ((d.toNat - 48) != 0)) ++ (wit9 : WagoState).buttons.drop wit9pre.length
       ∧ (setButtonsState wit9).1.b4 = (wit9 : WagoState).b4
       ∧ (setButtonsState wit9).1.coils = (wit9 : WagoState).coils) :=
  ⟨manual_entry_alphabet_unchecked.1 '2' (by decide) false [true] ['1'],
   manual_entry_alphabet_unchecked.2 wit9 wit9pre 'x' ['0'] rfl (by decide) (by decide)
     (by decide) (by decide)⟩

/-- C10: the name resetButtonsState is not among the methods defined on
MainWindow while resetMCLButtonsState is, so every invocation of the MCL
click handler ends in an exception: either the direction pattern matched
and the dispatched move is followed by AttributeError, or nothing was
dispatched and UnboundLocalError escaped; in both cases the direction
buttons are never programmatically unchecked.  Concretely, from the
initial state a click on the first direction button dispatches a move and
raises AttributeError leaving the button checked, and the next click on
the fourth button then produces the multi-bit pattern 1001, which
dispatches nothing. -/
theorem mcl_reset_method_missing :
    mainWindowAttrs.contains "resetButtonsState" = false
    ∧ mainWindowAttrs.contains "resetMCLButtonsState" = true
    ∧ (∀ s : MCLState,
        ((getMCLButtonsState s).2.2).isSome = true
        ∧ (getMCLButtonsState s).1.mclButtons = s.mclButtons
        ∧ ((getMCLButtonsState s).2.1 = []
           ∨ (getMCLButtonsState s).2.2 = some PyExc.attributeError))
    ∧ clickMCL mclInit 0
        = ({ mclInit with mclButtons := [true, false, false, false], mcl := "1000" },
           [⟨1, 1, 50 * (1/1000)⟩], some PyExc.attributeError)
    ∧ clickMCL { mclInit with mclButtons := [true, false, false, false] } 3
        = ({ mclInit with mclButtons := [true, false, false, true], mcl := "1001" },
           [], some PyExc.unboundLocalError) := by
  refine ⟨by decide, by decide, ?_, rfl, rfl⟩
  intro s
  have hmiss : ¬ ("resetButtonsState" ∈ mainWindowAttrs) := by decide
  cases hm : move s.D s.V (boolsToBinstring s.mclButtons) with
  | nameError =>
    refine ⟨?_, ?_, Or.inl ?_⟩ <;> simp [getMCLButtonsState, hm]
  | dispatched cmd =>
    refine ⟨?_, ?_, Or.inr ?_⟩ <;> simp [getMCLButtonsState, hm, hmiss]

end UFluid
